import Mathlib

/-!
Shallow embedding of the birdwatcher lock-monitoring tool (src/main.rs).

The program has three subcommands dispatched from main:
  * install — drops and recreates the lockTracking table;
  * scan    — an infinite loop that inserts a sample of currently granted
    AccessExclusiveLock rows each tick and prints a count summary when it
    changes (or on the first tick of each 50-tick window);
  * report  — reads the store, groups samples by the identity tuple
    (pid, db, relation, startedAt, query), reports MAX(age) as the duration
    of each episode, ordered by startedAt.

Database effects, console output and sleeping are modelled as an explicit
event trace; fallible database calls are modelled by Option-valued
responses supplied by the environment. Timestamps and interval ages are
modelled as Nat (milliseconds).
-/

namespace Birdwatcher

/-- Row of the lockTracking table, one sample of a held lock, as created by
CREATE_TABLE and populated by INSERT_INTO. -/
structure LockSample where
  mode : String
  pid : Int
  db : String
  relation : String
  username : String
  application : String
  startedAt : Nat
  age : Nat
  query : String
deriving DecidableEq, Repr

/-- Identity tuple of a lock episode: the GROUP BY columns of the REPORT
query, (pid, db, relation, startedAt, query). -/
abbrev LockKey := Int × String × String × Nat × String

/-- Projection of a sample to its episode identity tuple. -/
def sampleKey (s : LockSample) : LockKey :=
  (s.pid, s.db, s.relation, s.startedAt, s.query)

/-- SQL text of the DROP statement run by install. -/
def DROP_TABLE : String := "DROP TABLE IF EXISTS lockTracking"

/-- SQL text of the CREATE statement run by install. -/
def CREATE_TABLE : String :=
  "CREATE TABLE IF NOT EXISTS lockTracking (mode TEXT, pid INTEGER, db TEXT, relation TEXT, username TEXT, application TEXT, startedAt TIMESTAMP WITH TIME ZONE, age INTERVAL, query TEXT)"

/-- SQL text of the sampling INSERT run by every scan tick. -/
def INSERT_INTO : String :=
  "INSERT INTO locktracking(mode, pid, db, relation, username, application, startedAt, age, query) SELECT l.mode, l.pid, a.datname, c.relname, a.usename, a.application_name, a.query_start, age(clock_timestamp(), a.query_start), query FROM pg_catalog.pg_locks l JOIN pg_class c ON l.relation = c.oid JOIN pg_catalog.pg_stat_activity a ON l.pid = a.pid WHERE granted = true AND mode = \x27AccessExclusiveLock\x27"

/-- SQL text of the aggregation query run by report. -/
def REPORT : String :=
  "SELECT pid, db, relation, startedAt, query, MAX(age) as duration FROM locktracking GROUP by pid, db, relation, startedAt, query ORDER BY startedAt"

/-- Ages of all samples in the store that share the identity tuple k. -/
def episodeAges (k : LockKey) (store : List LockSample) : List Nat :=
  (store.filter (fun s => decide (sampleKey s = k))).map (fun s => s.age)

/-- MAX(age) over the samples sharing identity tuple k, the duration the
REPORT query computes for that episode. -/
def maxAge (k : LockKey) (store : List LockSample) : Nat :=
  (episodeAges k store).foldr max 0

/-- One row of the REPORT result set, as read into the DetectedLock struct
by report. started_at and age (the MAX(age) duration) are Nat here. -/
structure DetectedLock where
  pid : Int
  db : String
  relation : String
  started_at : Nat
  query : String
  age : Nat
deriving DecidableEq, Repr

/-- Identity tuple of a report row. -/
def lockKey (d : DetectedLock) : LockKey :=
  (d.pid, d.db, d.relation, d.started_at, d.query)

/-- Report row built for identity tuple k over the given store contents. -/
def mkLock (store : List LockSample) (k : LockKey) : DetectedLock :=
  { pid := k.1, db := k.2.1, relation := k.2.2.1, started_at := k.2.2.2.1,
    query := k.2.2.2.2, age := maxAge k store }

/-- Comparison used by ORDER BY startedAt. -/
def lockLE (a b : DetectedLock) : Prop := a.started_at ≤ b.started_at

instance : DecidableRel lockLE := fun a b => Nat.decLe a.started_at b.started_at

instance : IsTotal DetectedLock lockLE := ⟨fun a b => Nat.le_total a.started_at b.started_at⟩

instance : IsTrans DetectedLock lockLE := ⟨fun _ _ _ h1 h2 => Nat.le_trans h1 h2⟩

/-- Distinct identity tuples present in the store, in first-occurrence
order (the GROUP BY keys of the REPORT query). -/
def reportKeys (store : List LockSample) : List LockKey :=
  (store.map sampleKey).dedup

/-- Result set of the REPORT query on the given store contents: one row
per distinct identity tuple carrying MAX(age), ordered ascending by
startedAt. -/
def reportRows (store : List LockSample) : List DetectedLock :=
  ((reportKeys store).map (mkLock store)).insertionSort lockLE

/-- TLS mode of the postgres driver; main always passes TlsMode.urlnone. -/
inductive TlsMode where
  | urlnone : TlsMode
  | required : TlsMode
deriving DecidableEq, Repr

/-- Parsed command-line arguments, field for field the Args struct
deserialized by Docopt in the source. -/
structure Args where
  flag_interval : Nat
  flag_reset : Bool
  flag_tls : Bool
  flag_connection : Option String
  cmd_install : Bool
  cmd_scan : Bool
  cmd_report : Bool
deriving DecidableEq, Repr

/-- Observable effect of one program step: a database call, a line on
stdout or stderr, or a timed sleep. -/
inductive Event where
  | execSql (sql : String)
  | connectDb (url : String) (tls : TlsMode)
  | print (msg : String)
  | printCount (n : Nat)
  | printArgs (a : Args)
  | printRow (i : Nat) (r : DetectedLock)
  | logErr (msg : String)
  | sleep (ms : Nat)
deriving DecidableEq, Repr

/-- Mutable state carried across scan loop iterations: the throttling
index i (incremented mod 50) and previously_found. -/
structure ScanState where
  i : Nat
  previously_found : Nat
deriving DecidableEq, Repr

/-- Initial scan state: let mut i = 0; let mut previously_found = 0. -/
def scanInit : ScanState := ⟨0, 0⟩

/-- One iteration of the scan loop body. resp is the outcome of executing
INSERT_INTO: some n when the store reports n rows written, none on error.
On error the failure is logged and found is taken as 0. A count summary
is printed when i = 0 or the count differs from previously_found, and
only then is previously_found updated. The tick ends with a sleep of the
caller-supplied interval. -/
def scanTick (interval : Nat) (st : ScanState) (resp : Option Nat) :
    ScanState × List Event :=
  let found := match resp with
    | some n => n
    | none => 0
  let errEvents := match resp with
    | some _ => []
    | none => [Event.logErr "could not scan locks"]
  let emit : Bool := (st.i == 0) || (found != st.previously_found)
  let countEvents := if emit then [Event.printCount found] else []
  let st' : ScanState :=
    { i := (st.i + 1) % 50,
      previously_found := if emit then found else st.previously_found }
  (st', [Event.execSql INSERT_INTO] ++ errEvents ++ countEvents ++ [Event.sleep interval])

/-- Scan state at the start of tick n, given the stream of per-tick
INSERT_INTO responses. -/
def scanState (interval : Nat) (resps : Nat → Option Nat) : Nat → ScanState
  | 0 => scanInit
  | n + 1 => (scanTick interval (scanState interval resps n) (resps n)).1

/-- Event trace of the first n ticks of the scan loop. -/
def scanTrace (interval : Nat) (resps : Nat → Option Nat) : Nat → List Event
  | 0 => []
  | n + 1 => scanTrace interval resps n ++
      (scanTick interval (scanState interval resps n) (resps n)).2

/-- Recognizes a console count-summary event. -/
def isCountLine : Event → Bool
  | Event.printCount _ => true
  | _ => false

/-- Recognizes the execution of the sampling INSERT. -/
def isInsert : Event → Bool
  | Event.execSql s => s == INSERT_INTO
  | _ => false

/-- True when tick t of the scan loop prints a count summary. -/
def emitsAt (interval : Nat) (resps : Nat → Option Nat) (t : Nat) : Bool :=
  ((scanTick interval (scanState interval resps t) (resps t)).2).any isCountLine

/-- Number of count summaries printed while feeding the scan loop the
given finite list of per-tick counts (all appends succeeding). -/
def summariesFor (interval : Nat) (counts : List Nat) : Nat :=
  (scanTrace interval (fun t => some (counts.getD t 0)) counts.length).countP isCountLine

/-- State of the sample store: none when the lockTracking table does not
exist, some rows when it exists with the given contents. -/
structure StoreState where
  table : Option (List LockSample)
deriving DecidableEq, Repr

/-- Result of running install: final store state, event trace, and the
exit code when the process terminated via process::exit. -/
structure InstallResult where
  state : StoreState
  events : List Event
  exitCode : Option Nat
deriving DecidableEq, Repr

/-- The install subcommand. It always executes DROP_TABLE first; a drop
error (dropErr) is only logged. Then it executes CREATE_TABLE; a create
error (createErr) is logged and the process exits with code 1, otherwise
the table exists (fresh and empty after a successful drop) and it prints
ready to scan. -/
def install (st : StoreState) (dropErr createErr : Option String) : InstallResult :=
  let ev0 := [Event.print "installing table lockTracking", Event.execSql DROP_TABLE]
  let afterDrop : StoreState × List Event :=
    match dropErr with
    | some e => (st, ev0 ++ [Event.logErr ("could not remove table: " ++ e)])
    | none => (⟨none⟩, ev0)
  match createErr with
  | some e =>
      { state := afterDrop.1,
        events := afterDrop.2 ++ [Event.execSql CREATE_TABLE,
          Event.logErr ("oops, could not install table: " ++ e)],
        exitCode := some 1 }
  | none =>
      { state := ⟨some (afterDrop.1.table.getD [])⟩,
        events := afterDrop.2 ++ [Event.execSql CREATE_TABLE, Event.print "ready to scan!"],
        exitCode := none }

/-- Outcome of the report subcommand: fatal when the REPORT query fails
(the unwrap panics, no partial report), otherwise the emitted events. -/
inductive ReportOutcome where
  | fatal : ReportOutcome
  | done (events : List Event) : ReportOutcome
deriving DecidableEq, Repr

/-- Console lines of the report loop: one 0-indexed line per result row. -/
def reportLines (rows : List DetectedLock) : List Event :=
  rows.enum.map (fun p => Event.printRow p.1 p.2)

/-- Recognizes an episode line of the report. -/
def isRowLine : Event → Bool
  | Event.printRow _ _ => true
  | _ => false

/-- The report subcommand. qres is the REPORT query outcome: none when
the query fails (unwrap panics), some store when it succeeds against the
given store contents. On zero rows it prints the friendly no-locks
message and returns; otherwise it prints one line per row. -/
def report (qres : Option (List LockSample)) : ReportOutcome :=
  match qres with
  | none => ReportOutcome.fatal
  | some store =>
      let rows := reportRows store
      if rows.length = 0 then
        ReportOutcome.done [Event.print "no lock have been detected 🎉"]
      else
        ReportOutcome.done (reportLines rows)

/-- Environment of one program run: whether the startup connection
succeeds, the initial store state and injected DDL errors for install,
the per-tick INSERT_INTO responses and the number of scan ticks modelled,
and the REPORT query outcome. -/
structure World where
  connectOk : Bool
  store0 : StoreState
  dropErr : Option String
  createErr : Option String
  resps : Nat → Option Nat
  ticks : Nat
  queryRes : Option (List LockSample)

/-- Outcome of a whole program run: exited via process::exit with a code,
panicked, finished normally, or (for scan) still running after the
modelled ticks. Each carries the events observed so far. -/
inductive RunOutcome where
  | exited (code : Nat) (events : List Event) : RunOutcome
  | panicked (events : List Event) : RunOutcome
  | finished (events : List Event) : RunOutcome
  | running (events : List Event) : RunOutcome
deriving DecidableEq, Repr

/-- The main dispatcher. It prints the parsed Args debug line, unwraps
flag_connection (panicking when absent), connects with the literal
TlsMode.urlnone (exit 1 on failure, after logging), then dispatches on
cmd_install / cmd_scan / cmd_report, panicking when no command was
given. -/
def mainRun (a : Args) (w : World) : RunOutcome :=
  let pre := [Event.printArgs a]
  match a.flag_connection with
  | none => RunOutcome.panicked pre
  | some url =>
    let pre := pre ++ [Event.print ("connecting to database " ++ url),
      Event.connectDb url TlsMode.urlnone]
    if w.connectOk = false then
      RunOutcome.exited 1 (pre ++ [Event.logErr "oops, there was a problem connecting to the base"])
    else if a.cmd_install then
      let r := install w.store0 w.dropErr w.createErr
      match r.exitCode with
      | some c => RunOutcome.exited c (pre ++ r.events)
      | none => RunOutcome.finished (pre ++ r.events)
    else if a.cmd_scan then
      RunOutcome.running (pre ++ [Event.print "scanning for locks..."] ++
        scanTrace a.flag_interval w.resps w.ticks)
    else if a.cmd_report then
      match report w.queryRes with
      | ReportOutcome.fatal => RunOutcome.panicked pre
      | ReportOutcome.done evs => RunOutcome.finished (pre ++ evs)
    else
      RunOutcome.panicked (pre ++ [Event.logErr "No command specified"])

/-- Recognizes the startup debug echo of the parsed arguments. -/
def isArgsEcho : Event → Bool
  | Event.printArgs _ => true
  | _ => false

/-- Events of a run outcome. -/
def outEvents : RunOutcome → List Event
  | RunOutcome.exited _ evs => evs
  | RunOutcome.panicked evs => evs
  | RunOutcome.finished evs => evs
  | RunOutcome.running evs => evs

/-- A run outcome with the startup args echo removed from its events,
keeping the outcome kind and exit code. -/
def visible : RunOutcome → RunOutcome
  | RunOutcome.exited c evs => RunOutcome.exited c (evs.filter (fun e => !isArgsEcho e))
  | RunOutcome.panicked evs => RunOutcome.panicked (evs.filter (fun e => !isArgsEcho e))
  | RunOutcome.finished evs => RunOutcome.finished (evs.filter (fun e => !isArgsEcho e))
  | RunOutcome.running evs => RunOutcome.running (evs.filter (fun e => !isArgsEcho e))

/-- True when the event is a database connection with TLS disabled, or
not a connection event at all. -/
def tlsDisabled : Event → Bool
  | Event.connectDb _ m => m == TlsMode.urlnone
  | _ => true

/-- Events of a report outcome; a fatal outcome produced none. -/
def reportEvents : ReportOutcome → List Event
  | ReportOutcome.fatal => []
  | ReportOutcome.done evs => evs

instance : Inhabited DetectedLock := ⟨⟨0, "", "", 0, "", 0⟩⟩

/-- Sample of one fixed episode with the given age, used in concrete
test stores below. -/
def exSample (a : Nat) : LockSample :=
  { mode := "AccessExclusiveLock", pid := 42, db := "prod", relation := "orders",
    username := "alice", application := "app", startedAt := 1000, age := a,
    query := "UPDATE orders SET x = 1" }

/-- Store holding three samples of the same episode with ages 50, 120, 90
(the out-of-order late-write scenario of the spec). -/
def exStore : List LockSample := [exSample 50, exSample 120, exSample 90]

/-- The same samples written in a different order. -/
def exStoreLate : List LockSample := [exSample 120, exSample 90, exSample 50]

/-- Identity tuple of the episode sampled in exStore. -/
def exKey : LockKey := (42, "prod", "orders", 1000, "UPDATE orders SET x = 1")

/-- Store holding two distinct episodes, the later-started one written
first. -/
def ordStore : List LockSample :=
  [{ mode := "AccessExclusiveLock", pid := 7, db := "prod", relation := "users",
     username := "bob", application := "app", startedAt := 2000, age := 10,
     query := "DELETE FROM users" },
   { mode := "AccessExclusiveLock", pid := 42, db := "prod", relation := "orders",
     username := "alice", application := "app", startedAt := 1000, age := 30,
     query := "UPDATE orders SET x = 1" }]

/-- Concrete arguments of a scan invocation. -/
def exArgsScan : Args :=
  { flag_interval := 100, flag_reset := false, flag_tls := false,
    flag_connection := some "postgres://postgres@localhost:5432",
    cmd_install := false, cmd_scan := true, cmd_report := false }

/-- Concrete arguments of a report invocation. -/
def exArgsReport : Args :=
  { flag_interval := 100, flag_reset := false, flag_tls := false,
    flag_connection := some "postgres://postgres@localhost:5432",
    cmd_install := false, cmd_scan := false, cmd_report := true }

/-- Concrete healthy environment: connection succeeds, no DDL errors,
every tick writes zero rows, one scan tick is modelled, the report query
sees an empty store. -/
def exWorld : World :=
  { connectOk := true, store0 := ⟨none⟩, dropErr := none, createErr := none,
    resps := fun _ => some 0, ticks := 1, queryRes := some [] }

/-- Folding max over a list is invariant under permutation. -/
theorem foldr_max_perm {l₁ l₂ : List Nat} (h : l₁.Perm l₂) (b : Nat) :
    l₁.foldr max b = l₂.foldr max b := by
  induction h with
  | nil => rfl
  | cons x _ ih => simp [List.foldr_cons, ih]
  | swap x y l => simp [List.foldr_cons, max_left_comm]
  | trans _ _ ih1 ih2 => exact ih1.trans ih2

/-- The episode maximum age is invariant under permutation of the store. -/
theorem maxAge_perm (k : LockKey) {s s' : List LockSample} (h : s.Perm s') :
    maxAge k s = maxAge k s' :=
  foldr_max_perm (((h.filter _).map _)) 0

/-- Counting occurrences of an element in a duplicate-free list gives one
when present, zero otherwise. -/
theorem countP_eq_of_nodup {α : Type} [DecidableEq α] (l : List α) (h : l.Nodup) (k : α) :
    l.countP (fun x => decide (x = k)) = if k ∈ l then 1 else 0 := by
  induction l with
  | nil => simp
  | cons a l ih =>
    rcases List.nodup_cons.mp h with ⟨ha, hl⟩
    by_cases hak : a = k
    · subst hak
      simp [List.countP_cons, ih hl, ha]
    · simp [List.countP_cons, ih hl, hak, Ne.symm hak]

/-- The report row built for a key projects back to that key. -/
theorem lockKey_mkLock (store : List LockSample) (k : LockKey) :
    lockKey (mkLock store k) = k := rfl

/-- C1: for every store contents, the report groups samples by the
identity tuple (pid, db, relation, started_at, query): exactly one line
per distinct tuple present (not one per sample), the reported duration is
the maximum age among all samples sharing the tuple, one console line is
printed per row, and the result is the same up to order for any
permutation of the written samples. -/
theorem report_one_line_max_duration (store store' : List LockSample)
    (hp : store.Perm store') :
    (∀ k : LockKey, (reportRows store).countP (fun r => decide (lockKey r = k)) =
        if k ∈ store.map sampleKey then 1 else 0)
    ∧ (∀ r ∈ reportRows store, r.age = maxAge (lockKey r) store)
    ∧ (reportLines (reportRows store)).length = (reportRows store).length
    ∧ (reportRows store).Perm (reportRows store') := by
  refine ⟨?_, ?_, ?_, ?_⟩
  · intro k
    have h1 : (reportRows store).countP (fun r => decide (lockKey r = k)) =
        ((reportKeys store).map (mkLock store)).countP (fun r => decide (lockKey r = k)) :=
      (List.perm_insertionSort lockLE _).countP_eq _
    rw [h1, List.countP_map]
    have h2 : ((fun r => decide (lockKey r = k)) ∘ mkLock store) =
        fun x => decide (x = k) := by
      funext x
      simp [lockKey_mkLock]
    rw [h2, reportKeys, countP_eq_of_nodup _ (List.nodup_dedup _) k]
    simp [List.mem_dedup]
  · intro r hr
    have hr2 : r ∈ (reportKeys store).map (mkLock store) :=
      (List.mem_insertionSort lockLE).mp hr
    rcases List.mem_map.mp hr2 with ⟨k', _, rfl⟩
    rfl
  · simp [reportLines]
  · have h2 : (reportKeys store).Perm (reportKeys store') := (hp.map sampleKey).dedup
    have h3 : ((reportKeys store).map (mkLock store)).Perm
        ((reportKeys store').map (mkLock store)) := h2.map _
    have h4 : (reportKeys store').map (mkLock store) =
        (reportKeys store').map (mkLock store') := by
      refine List.map_congr_left (fun k _ => ?_)
      unfold mkLock
      rw [maxAge_perm k hp]
    have h6 : ((reportKeys store').map (mkLock store')).Perm (reportRows store') :=
      (List.perm_insertionSort lockLE _).symm
    rw [← h4] at h6
    exact (List.perm_insertionSort lockLE _).trans (h3.trans h6)

/-- Witness for C1 at the out-of-order late-write scenario: one report
line for the episode, durations given by the maximum age, result stable
under reordering the writes. -/
theorem report_one_line_max_duration_witness :
    ((reportRows exStore).countP (fun r => decide (lockKey r = exKey)) =
      if exKey ∈ exStore.map sampleKey then 1 else 0)
    ∧ (∀ r ∈ reportRows exStore, r.age = maxAge (lockKey r) exStore)
    ∧ (reportRows exStore).Perm (reportRows exStoreLate) :=
  ⟨(report_one_line_max_duration exStore exStoreLate (by decide)).1 exKey,
   (report_one_line_max_duration exStore exStoreLate (by decide)).2.1,
   (report_one_line_max_duration exStore exStoreLate (by decide)).2.2.2⟩

/-- Evaluation of the spec scenario: ages 50, 120, 90 of one episode
produce exactly one report row, with duration 120. -/
theorem exStore_report_eval :
    reportRows exStore =
      [{ pid := 42, db := "prod", relation := "orders", started_at := 1000,
         query := "UPDATE orders SET x = 1", age := 120 }] := by decide

/-- C3: report rows are emitted ascending by started_at: a row with a
strictly smaller started_at appears at a strictly smaller index, for
every store contents, hence regardless of insertion order. -/
theorem report_ordered_by_started_at (store : List LockSample) (i j : Nat)
    (hi : i < (reportRows store).length) (hj : j < (reportRows store).length)
    (hlt : ((reportRows store).getD i default).started_at <
      ((reportRows store).getD j default).started_at) :
    i < j := by
  have hgi : (reportRows store).getD i default = (reportRows store).get ⟨i, hi⟩ := by
    simp [List.getD_eq_getElem, hi]
  have hgj : (reportRows store).getD j default = (reportRows store).get ⟨j, hj⟩ := by
    simp [List.getD_eq_getElem, hj]
  rw [hgi, hgj] at hlt
  by_contra hij
  have hs : (reportRows store).Sorted lockLE :=
    List.sorted_insertionSort lockLE ((reportKeys store).map (mkLock store))
  rcases Nat.lt_or_ge j i with hji | hji
  · have hle : lockLE ((reportRows store).get ⟨j, hj⟩) ((reportRows store).get ⟨i, hi⟩) :=
      hs.rel_get_of_lt hji
    exact absurd hlt (Nat.not_lt.mpr hle)
  · have : i = j := Nat.le_antisymm hji (Nat.not_lt.mp hij)
    subst this
    exact Nat.lt_irrefl _ hlt

/-- Witness for C3: in a store where the later-started episode was
written first, the earlier-started episode is still reported first. -/
theorem report_ordered_by_started_at_witness :
    0 < (reportRows ordStore).length ∧ 1 < (reportRows ordStore).length
    ∧ ((reportRows ordStore).getD 0 default).started_at <
        ((reportRows ordStore).getD 1 default).started_at
    ∧ (0 : Nat) < 1 :=
  ⟨by decide, by decide, by decide,
   report_ordered_by_started_at ordStore 0 1 (by decide) (by decide) (by decide)⟩

/-- The throttling index at tick n is n mod 50. -/
theorem scanState_i (interval : Nat) (resps : Nat → Option Nat) (n : Nat) :
    (scanState interval resps n).i = n % 50 := by
  induction n with
  | zero => rfl
  | succ n ih =>
    show ((scanTick interval (scanState interval resps n) (resps n)).1).i = (n + 1) % 50
    simp only [scanTick]
    rw [ih]
    omega

/-- After any tick with a successful append, previously_found holds that
tick's count, whether or not a summary was printed. -/
theorem scanState_prev (interval : Nat) (counts : Nat → Nat) (n : Nat) :
    (scanState interval (fun t => some (counts t)) (n + 1)).previously_found = counts n := by
  show ((scanTick interval (scanState interval (fun t => some (counts t)) n)
      (some (counts n))).1).previously_found = counts n
  set st := scanState interval (fun t => some (counts t)) n with hst
  by_cases hb : ((st.i == 0) || (counts n != st.previously_found)) = true
  · simp [scanTick, hb]
  · have : (counts n != st.previously_found) = false := by
      rcases Bool.or_eq_false_iff.mp (Bool.not_eq_true _ |>.mp hb) with ⟨_, h2⟩
      exact h2
    have heq : counts n = st.previously_found := by
      simpa using this
    simp [scanTick, hb, heq]

/-- A tick prints a count summary exactly when the throttling index is
zero or the count differs from previously_found. -/
theorem emitsAt_eq (interval : Nat) (resps : Nat → Option Nat) (t : Nat) :
    emitsAt interval resps t =
      (((scanState interval resps t).i == 0) ||
        ((resps t).getD 0 != (scanState interval resps t).previously_found)) := by
  unfold emitsAt
  set st := scanState interval resps t with hst
  cases hr : resps t with
  | none =>
    by_cases hb : ((st.i == 0) || ((0 : Nat) != st.previously_found)) = true
    · simp [scanTick, hb, isCountLine]
    · simp [scanTick, Bool.not_eq_true _ |>.mp hb, isCountLine]
  | some m =>
    by_cases hb : ((st.i == 0) || (m != st.previously_found)) = true
    · simp [scanTick, hb, isCountLine]
    · simp [scanTick, Bool.not_eq_true _ |>.mp hb, isCountLine]

/-- C2 amended: with every append succeeding, a count summary is printed
on tick t+1 exactly when the throttling index wrapped to zero (t+1 is a
multiple of 50) or the count differs from the previous tick's count; the
very first tick always prints; and the spec sequence [0,0,0,3,3,5,5,5]
prints exactly 3 summaries. -/
theorem scan_summary_on_change_or_window (interval : Nat) (counts : Nat → Nat) :
    emitsAt interval (fun t => some (counts t)) 0 = true
    ∧ (∀ t : Nat, emitsAt interval (fun t => some (counts t)) (t + 1) =
        ((((t + 1) % 50) == 0) || (counts (t + 1) != counts t)))
    ∧ summariesFor 100 [0, 0, 0, 3, 3, 5, 5, 5] = 3 := by
  refine ⟨?_, ?_, by decide⟩
  · rw [emitsAt_eq]
    simp [scanState, scanInit]
  · intro t
    rw [emitsAt_eq, scanState_i, scanState_prev]
    simp

/-- C2 as stated is false: a summary is printed on a tick if and only if
it is the first tick or the count changed — refuted at tick 50 of an
all-zero count stream, where the wrapped throttling index forces a
summary although the count is unchanged. -/
theorem scan_summary_iff_change_cex :
    ¬ (∀ (interval : Nat) (counts : Nat → Nat) (t : Nat),
        emitsAt interval (fun u => some (counts u)) t =
          ((t == 0) || (counts t != counts (t - 1)))) := by
  intro h
  have h50 := h 100 (fun _ => 0) 50
  have hv : emitsAt 100 (fun _ => some 0) 50 = true := by decide
  rw [hv] at h50
  exact absurd h50.symm (by decide)

/-- C5: when the append fails on a tick, the loop state advances exactly
as if zero rows had been found, the failure is logged, the tick still
ends with its sleep, and the loop goes on to the next tick. -/
theorem scan_append_failure_recoverable (interval : Nat) (st : ScanState)
    (resps : Nat → Option Nat) (n : Nat) :
    (scanTick interval st none).1 = (scanTick interval st (some 0)).1
    ∧ Event.logErr "could not scan locks" ∈ (scanTick interval st none).2
    ∧ ((scanTick interval st none).2).getLast? = some (Event.sleep interval)
    ∧ scanTrace interval resps (n + 1) =
        scanTrace interval resps n ++
          (scanTick interval (scanState interval resps n) (resps n)).2 := by
  refine ⟨rfl, ?_, ?_, rfl⟩
  · by_cases hb : ((st.i == 0) || ((0 : Nat) != st.previously_found)) = true
    · simp [scanTick, hb]
    · simp [scanTick, Bool.not_eq_true _ |>.mp hb]
  · by_cases hb : ((st.i == 0) || ((0 : Nat) != st.previously_found)) = true
    · simp [scanTick, hb]
    · simp [scanTick, Bool.not_eq_true _ |>.mp hb]

/-- C7: every tick of the scan loop executes the sampling INSERT exactly
once, whatever the suppression state and the append outcome. -/
theorem scan_always_writes (interval : Nat) (st : ScanState) (resp : Option Nat) :
    ((scanTick interval st resp).2).countP isInsert = 1 := by
  cases hr : resp with
  | none =>
    by_cases hb : ((st.i == 0) || ((0 : Nat) != st.previously_found)) = true
    · simp [scanTick, hb, isInsert]
    · simp [scanTick, Bool.not_eq_true _ |>.mp hb, isInsert]
  | some m =>
    by_cases hb : ((st.i == 0) || (m != st.previously_found)) = true
    · simp [scanTick, hb, isInsert]
    · simp [scanTick, Bool.not_eq_true _ |>.mp hb, isInsert]

/-- C8: after any number of completed ticks the loop performs another
tick: the trace of n+1 ticks extends the trace of n ticks by one
nonempty tick whose final event is the sleep of the caller-supplied
interval, so each tick completes (sleep included) before the next
begins. -/
theorem scan_loop_runs_forever (interval : Nat) (resps : Nat → Option Nat) (n : Nat) :
    scanTrace interval resps (n + 1) =
      scanTrace interval resps n ++
        (scanTick interval (scanState interval resps n) (resps n)).2
    ∧ (scanTick interval (scanState interval resps n) (resps n)).2 ≠ []
    ∧ ((scanTick interval (scanState interval resps n) (resps n)).2).getLast? =
        some (Event.sleep interval) := by
  set st := scanState interval resps n with hst
  refine ⟨rfl, ?_, ?_⟩
  · cases hr : resps n <;> simp [scanTick]
  · cases hr : resps n with
    | none =>
      by_cases hb : ((st.i == 0) || ((0 : Nat) != st.previously_found)) = true
      · simp [scanTick, hb]
      · simp [scanTick, Bool.not_eq_true _ |>.mp hb]
    | some m =>
      by_cases hb : ((st.i == 0) || (m != st.previously_found)) = true
      · simp [scanTick, hb]
      · simp [scanTick, Bool.not_eq_true _ |>.mp hb]

/-- C4: install always attempts the destroy first; a destroy failure is
logged and never fatal (the exit code depends only on the create
outcome, which is fatal with code 1 when it fails); with no injected
errors the store ends valid and empty, and a second install succeeds
again with a valid empty store. -/
theorem install_unconditional_drop_fatal_create (st : StoreState)
    (de ce : Option String) (e : String) :
    Event.execSql DROP_TABLE ∈ (install st de ce).events
    ∧ (install st de ce).exitCode = (if ce.isSome then some 1 else none)
    ∧ Event.logErr ("could not remove table: " ++ e) ∈ (install st (some e) ce).events
    ∧ (install st none none).state.table = some []
    ∧ (install st none none).exitCode = none
    ∧ (install (install st none none).state none none).exitCode = none
    ∧ (install (install st none none).state none none).state.table = some [] := by
  refine ⟨?_, ?_, ?_, rfl, rfl, rfl, rfl⟩
  · cases de <;> cases ce <;> simp [install]
  · cases ce <;> simp [install]
  · cases ce <;> simp [install]

/-- C6: a failing report query is fatal and yields no partial report,
while an empty store is a success: the friendly no-locks message is
printed and zero episode lines are emitted. -/
theorem report_empty_success_query_fatal :
    report none = ReportOutcome.fatal
    ∧ (∀ evs : List Event, report none ≠ ReportOutcome.done evs)
    ∧ report (some []) = ReportOutcome.done [Event.print "no lock have been detected 🎉"]
    ∧ report (some []) ≠ ReportOutcome.fatal
    ∧ (reportEvents (report (some []))).countP isRowLine = 0 := by
  refine ⟨rfl, ?_, rfl, ?_, rfl⟩
  · intro evs h
    exact ReportOutcome.noConfusion h
  · intro h
    exact ReportOutcome.noConfusion h

/-- Runs differing only in fields the dispatcher never reads (beyond the
args echo) have the same visible outcome. -/
theorem mainRun_visible_eq (a b : Args) (w : World)
    (h1 : a.flag_interval = b.flag_interval)
    (h2 : a.flag_connection = b.flag_connection)
    (h3 : a.cmd_install = b.cmd_install)
    (h4 : a.cmd_scan = b.cmd_scan)
    (h5 : a.cmd_report = b.cmd_report) :
    visible (mainRun a w) = visible (mainRun b w) := by
  obtain ⟨ai, ar, atl, ac, ci, cs, cr⟩ := a
  obtain ⟨bi, br, btl, bc, di, ds, dr⟩ := b
  obtain rfl : ai = bi := h1
  obtain rfl : ac = bc := h2
  obtain rfl : ci = di := h3
  obtain rfl : cs = ds := h4
  obtain rfl : cr = dr := h5
  cases ac with
  | none => rfl
  | some url =>
    simp only [mainRun]
    cases hco : w.connectOk with
    | false => simp [visible, isArgsEcho]
    | true =>
      cases ci with
      | true =>
        cases hex : (install w.store0 w.dropErr w.createErr).exitCode <;>
          simp [hex, visible, isArgsEcho, List.filter_append]
      | false =>
        cases cs with
        | true => simp [visible, isArgsEcho, List.filter_append]
        | false =>
          cases cr with
          | true =>
            cases hq : report w.queryRes <;>
              simp [hq, visible, isArgsEcho, List.filter_append]
          | false => simp [visible, isArgsEcho, List.filter_append]

/-- C9 is false as stated: two scan runs differing only in the parsed
reset flag produce different console output, because main echoes the
parsed arguments (reset flag included) to the console at startup. -/
theorem scan_reset_flag_output_cex :
    mainRun exArgsScan exWorld ≠
      mainRun { exArgsScan with flag_reset := true } exWorld := by decide

/-- C9 amended: the reset flag is never read after parsing, so two scan
runs differing only in it have identical writes and identical console
output apart from the startup echo of the parsed arguments. -/
theorem scan_reset_flag_no_effect (a : Args) (w : World) (r1 r2 : Bool) :
    visible (mainRun { a with flag_reset := r1 } w) =
      visible (mainRun { a with flag_reset := r2 } w) :=
  mainRun_visible_eq _ _ w rfl rfl rfl rfl rfl

/-- Every event of a scan tick leaves TLS disabled (no tick connects). -/
theorem scanTick_tls (interval : Nat) (st : ScanState) (resp : Option Nat) :
    ((scanTick interval st resp).2).all tlsDisabled = true := by
  cases hr : resp with
  | none =>
    by_cases hb : ((st.i == 0) || ((0 : Nat) != st.previously_found)) = true
    · simp [scanTick, hb, tlsDisabled]
    · simp [scanTick, Bool.not_eq_true _ |>.mp hb, tlsDisabled]
  | some m =>
    by_cases hb : ((st.i == 0) || (m != st.previously_found)) = true
    · simp [scanTick, hb, tlsDisabled]
    · simp [scanTick, Bool.not_eq_true _ |>.mp hb, tlsDisabled]

/-- No event of the scan loop trace enables TLS. -/
theorem scanTrace_tls (interval : Nat) (resps : Nat → Option Nat) (n : Nat) :
    (scanTrace interval resps n).all tlsDisabled = true := by
  induction n with
  | zero => rfl
  | succ n ih => simp [scanTrace, List.all_append, ih, scanTick_tls]

/-- No event of install enables TLS. -/
theorem install_tls (st : StoreState) (de ce : Option String) :
    ((install st de ce).events).all tlsDisabled = true := by
  cases de <;> cases ce <;> simp [install, tlsDisabled]

/-- No event of report enables TLS. -/
theorem report_tls (q : Option (List LockSample)) :
    (reportEvents (report q)).all tlsDisabled = true := by
  cases q with
  | none => rfl
  | some store =>
    by_cases h : (reportRows store).length = 0
    · simp [report, h, reportEvents, tlsDisabled]
    · have he : reportEvents (report (some store)) = reportLines (reportRows store) := by
        simp [report, h, reportEvents]
      rw [he, reportLines]
      simp only [List.all_eq_true]
      intro e he2
      rcases List.mem_map.mp he2 with ⟨p, _, rfl⟩
      rfl

/-- C10 amended: on every run the database connection is established with
TLS disabled (the dispatcher passes the literal disabled mode and no
other event connects), and the tls flag, never read after parsing, has
no effect beyond the startup echo of the parsed arguments. -/
theorem tls_always_disabled_flag_no_effect (a : Args) (w : World) (t1 t2 : Bool) :
    (outEvents (mainRun a w)).all tlsDisabled = true
    ∧ visible (mainRun { a with flag_tls := t1 } w) =
        visible (mainRun { a with flag_tls := t2 } w) := by
  refine ⟨?_, mainRun_visible_eq _ _ w rfl rfl rfl rfl rfl⟩
  obtain ⟨ai, ar, atl, ac, ci, cs, cr⟩ := a
  cases ac with
  | none => rfl
  | some url =>
    simp only [mainRun]
    cases hco : w.connectOk with
    | false => simp [outEvents, tlsDisabled]
    | true =>
      cases ci with
      | true =>
        cases hex : (install w.store0 w.dropErr w.createErr).exitCode <;>
          simp [hex, outEvents, tlsDisabled, List.all_append, install_tls]
      | false =>
        cases cs with
        | true =>
          simp [outEvents, tlsDisabled, List.all_append, scanTrace_tls]
        | false =>
          cases cr with
          | true =>
            cases hq : report w.queryRes with
            | fatal => simp [hq, outEvents, tlsDisabled]
            | done evs =>
              have := report_tls w.queryRes
              rw [hq] at this
              simp [hq, outEvents, tlsDisabled, List.all_append]
              simpa [reportEvents] using this
          | false => simp [outEvents, tlsDisabled, List.all_append]

/-- C10 is false as stated: two report runs differing only in the parsed
tls flag produce different behavior, because main echoes the parsed
arguments (tls flag included) to the console at startup. -/
theorem tls_flag_output_cex :
    mainRun exArgsReport exWorld ≠
      mainRun { exArgsReport with flag_tls := true } exWorld := by decide

end Birdwatcher
